import Mathlib

/-
Shallow embedding of the Gemini File Search Gradio demo (src/app.py) and
verification of the specification claims about it.

Modeling conventions:
  * Remote service calls are passed in as explicit function parameters
    returning `Except Err _` (an `error` models a raised Python exception).
  * Each flow returns, besides its value or yielded snapshots, the list of
    remote calls it issued, in order.
  * Generator functions are modeled as functions returning the list of the
    snapshots they yield.
  * The unbounded `while not op.done` poll loops are modeled by threading an
    explicit (finite) stream of re-fetch results; exhausting the stream while
    the operation is still pending is reported as `FlowResult.hang`, which
    models the loop running forever.
  * Python float percentage arithmetic in `create_store_with_samples` is
    modeled over `ℚ` (the exact values of the idealized computation).
-/

set_option maxHeartbeats 1000000
set_option maxRecDepth 8000

namespace App

/-- Error payload carried by a raised Python exception (its display text). -/
abbrev Err := String

/-- The client handle produced by `genai.Client(api_key=...)` (src/app.py line 65). -/
structure Client where
  apiKey : String
deriving Repr, DecidableEq

/-- A file-search store handle (result of `file_search_stores.create/get`):
service-assigned resource `name` plus user-supplied `display_name`. -/
structure Store where
  name : String
  displayName : String
deriving Repr, DecidableEq

/-- Handle returned by `client.files.upload` (src/app.py line 117). -/
structure FileHandle where
  name : String
deriving Repr, DecidableEq

/-- An asynchronous operation handle: completion flag plus optional response
payload. The payload is carried in already-serialized textual form (the code
only ever forwards it to `json.dumps`), `none` models an absent payload. -/
structure Operation where
  done : Bool
  response : Option String
deriving Repr, DecidableEq

/-- `types.CustomMetadata` (src/app.py lines 120-125). -/
structure CustomMetadata where
  key : String
  stringValue : Option String
  numericValue : Option Int
deriving Repr, DecidableEq

/-- `types.WhiteSpaceConfig` (src/app.py lines 200-203). -/
structure WhiteSpaceConfig where
  maxTokensPerChunk : Int
  maxOverlapTokens : Int
deriving Repr, DecidableEq

/-- `types.ChunkingConfig` (src/app.py lines 199-204). -/
structure ChunkingConfig where
  whiteSpaceConfig : WhiteSpaceConfig
deriving Repr, DecidableEq

/-- `types.UploadToFileSearchStoreConfig` (src/app.py lines 208-211). -/
structure UploadConfig where
  displayName : Option String
  chunkingConfig : Option ChunkingConfig
deriving Repr, DecidableEq

/-- One remote call issued to the Gemini service, with the arguments the code
passes to it. -/
inductive RemoteCall where
  | createStore (displayName : String)
  | getStore (name : String)
  | listStores
  | deleteStore (name : String) (force : Bool)
  | uploadFile (path : String) (displayName : String)
  | importFile (storeName : String) (fileName : String) (meta : List CustomMetadata)
  | getOperation
  | uploadToFileSearchStore (filePath : String) (storeName : String) (cfg : Option UploadConfig)
  | generateContent (model : String) (contents : String) (storeNames : List String)
      (metadataFilter : Option String)
deriving Repr, DecidableEq

/-- Outcome of one flow invocation: it returned normally, an uncaught exception
propagated out of it, or it hung (the poll loop's re-fetch stream was exhausted
while the operation stayed pending, modeling the unbounded `while not op.done`
loop never terminating). -/
inductive FlowResult (α : Type) where
  | ok (a : α)
  | raised (e : Err)
  | hang
deriving Repr, DecidableEq

/-- Python `str.strip()` on the underlying character list: drop leading and
trailing whitespace. -/
def stripChars (l : List Char) : List Char :=
  ((l.dropWhile Char.isWhitespace).reverse.dropWhile Char.isWhitespace).reverse

/-- Python `str.strip()`. -/
def pyStrip (s : String) : String := String.mk (stripChars s.data)

/-- Python `s or d` for strings: the empty string is falsy. -/
def pyOr (s d : String) : String := if s = "" then d else s

/-- Python truthiness test `not x` for an optional integer field: `None` and
`0` are falsy. -/
def intFalsy (x : Option Int) : Bool :=
  match x with
  | none => true
  | some n => if n = 0 then true else false

/-- Python `int(x or d)` for an optional integer field. -/
def intOr (x : Option Int) (d : Int) : Int :=
  if intFalsy x then d else x.getD 0

/-- `Path(p).name`: the final path component. -/
def pathName (p : String) : String := List.getLastD (p.splitOn "/") p

/-- `base / rel` pathlib join, modeled as string concatenation with a slash. -/
def joinPath (base rel : String) : String := base ++ "/" ++ rel

/-- src/app.py line 12. -/
def DEFAULT_MODEL : String := "gemini-2.5-flash"

/-- src/app.py line 13. -/
def SAMPLES_DIR_DEFAULT : String := "samples"

/-- One entry of the hard-coded catalog `SAMPLE_FILES` (src/app.py lines 15-20). -/
structure SampleSpec where
  path : String
  title : String
  author : String
  year : Int
deriving Repr, DecidableEq

/-- The hard-coded catalog of known documents (src/app.py lines 15-20). -/
def SAMPLE_FILES : List SampleSpec :=
  [⟨"Pride_and_Prejudice.txt", "Pride and Prejudice", "Jane Austen", 1813⟩,
   ⟨"Adventures_of_Sherlock_Holmes.txt", "The Adventures of Sherlock Holmes", "Arthur Conan Doyle", 1892⟩,
   ⟨"Alices_Adventures_in_Wonderland.txt", "Alice's Adventures in Wonderland", "Lewis Carroll", 1865⟩,
   ⟨"Moby_Dick.txt", "Moby-Dick", "Herman Melville", 1851⟩]

/-- The spinner glyph list (src/app.py lines 98 and 225). -/
def spinner : List String := ["⠋","⠙","⠹","⠸","⠼","⠴","⠦","⠧","⠇","⠏"]

/-- `spinner[tick % len(spinner)]`. -/
def spinnerAt (tick : Nat) : String := spinner.getD (tick % 10) ""

/-- `ui_set_api_key` (src/app.py lines 59-68). `clientInit` stands for the
`genai.Client` constructor (which may raise); the returned Bool records
whether that constructor was invoked at all. -/
def ui_set_api_key (clientInit : String → Except Err Client) (apiKey : String) :
    (Option Client × String) × Bool :=
  let k := pyStrip apiKey
  if k = "" then
    ((none, "❌ API key required. paste your Gemini key and click Set key."), false)
  else
    match clientInit k with
    | Except.ok c => ((some c, "✅ API key set for this session."), true)
    | Except.error e => ((none, "❌ Failed to initialize client. " ++ e), true)

/-- The display name computed by `create_store_with_samples`
(src/app.py line 82): `(store_display_name or "").strip() or "file-search-samples"`. -/
def samplesDisplayName (s : String) : String := pyOr (pyStrip s) "file-search-samples"

/-- The display name computed by `make_empty_store`
(src/app.py line 160): `(display_name or "").strip() or "file-search-uploads"`. -/
def uploadsDisplayName (s : String) : String := pyOr (pyStrip s) "file-search-uploads"

/-- `make_empty_store` (src/app.py lines 156-162). Returns (store_state,
status message) on normal return, together with the remote calls issued. -/
def make_empty_store (createStore : String → Except Err Store)
    (clientState : Option Client) (displayName : String) :
    FlowResult (String × String) × List RemoteCall :=
  match clientState with
  | none => (FlowResult.ok ("", "❌ Set your API key first."), [])
  | some _ =>
    let dn := uploadsDisplayName displayName
    match createStore dn with
    | Except.error e => (FlowResult.raised e, [RemoteCall.createStore dn])
    | Except.ok store =>
      (FlowResult.ok (store.name, "✅ Created empty store for uploads. `" ++ store.name ++ "`"),
       [RemoteCall.createStore dn])

/-- `set_existing_store` (src/app.py lines 164-175). The `try/except` around
`file_search_stores.get` converts a raised exception into a normal return. -/
def set_existing_store (getStore : String → Except Err Store)
    (clientState : Option Client) (name : String) :
    FlowResult (String × String) × List RemoteCall :=
  match clientState with
  | none => (FlowResult.ok ("", "❌ Set your API key first."), [])
  | some _ =>
    let n := pyStrip name
    if n = "" then
      (FlowResult.ok ("", "⚠️ Paste a store resource like `fileSearchStores/...`"), [])
    else
      match getStore n with
      | Except.ok store =>
        (FlowResult.ok (store.name, "✅ Using existing store: `" ++ store.name ++ "`"),
         [RemoteCall.getStore n])
      | Except.error e =>
        (FlowResult.ok ("", "❌ Could not get store. " ++ e), [RemoteCall.getStore n])

/-- `delete_store` (src/app.py lines 290-300). The `try/except` converts a
raised exception into a normal return. -/
def delete_store (deleteCall : String → Bool → Except Err Unit)
    (clientState : Option Client) (storeName : String) :
    FlowResult String × List RemoteCall :=
  match clientState with
  | none => (FlowResult.ok "❌ Set your API key first.", [])
  | some _ =>
    if storeName = "" then
      (FlowResult.ok "⚠️ Enter a store name to delete.", [])
    else
      match deleteCall storeName true with
      | Except.ok _ =>
        (FlowResult.ok ("🗑️ Deleted: `" ++ storeName ++ "`"), [RemoteCall.deleteStore storeName true])
      | Except.error e =>
        (FlowResult.ok ("❌ Delete failed. " ++ e), [RemoteCall.deleteStore storeName true])

/-- `list_stores` (src/app.py lines 281-288). -/
def list_stores (listCall : Except Err (List Store)) (clientState : Option Client) :
    FlowResult String × List RemoteCall :=
  match clientState with
  | none => (FlowResult.ok "❌ Set your API key first.", [])
  | some _ =>
    match listCall with
    | Except.error e => (FlowResult.raised e, [RemoteCall.listStores])
    | Except.ok stores =>
      let items := stores.map (fun s => s.name ++ "  |  display_name=" ++ s.displayName)
      (FlowResult.ok (pyOr (String.intercalate "\n" items) "(none)"), [RemoteCall.listStores])

/-- Shape of the grounding metadata found on the response's first candidate
(src/app.py lines 267-277): absent, an object with `model_dump` (serialized),
a plain dict (serialized), any other non-None object (its `str(...)` form), or
a value whose rendering raised (with the exception text). -/
inductive Grounding where
  | absent
  | dump (s : String)
  | dict (s : String)
  | other (s : String)
  | parseError (e : String)
deriving Repr, DecidableEq

/-- Response of `models.generate_content`: optional `text` plus the grounding
metadata state of its first candidate. -/
structure GenResponse where
  text : Option String
  grounding : Grounding
deriving Repr, DecidableEq

/-- The grounding text computed by `ask` (src/app.py lines 267-277). -/
def renderGrounding : Grounding → String
  | Grounding.absent => "No grounding_metadata returned."
  | Grounding.dump s => s
  | Grounding.dict s => s
  | Grounding.other s => s
  | Grounding.parseError e => "(Could not parse grounding metadata: " ++ e ++ ")"

/-- One chat message (`{"role": ..., "content": ...}`). -/
structure ChatMsg where
  role : String
  content : String
deriving Repr, DecidableEq

/-- `ask` (src/app.py lines 239-279). `generate` stands for
`client.models.generate_content` restricted to the arguments the code passes:
model id, question contents, file-search store names, optional metadata
filter. The first component of the result is the returned triple
(history, grounding text, note) on normal return. -/
def ask (generate : String → String → List String → Option String → Except Err GenResponse)
    (clientState : Option Client) (storeName : String)
    (historyMsgs : Option (List ChatMsg)) (question : String)
    (modelId : String) (metadataFilter : String) :
    FlowResult (Option (List ChatMsg) × String × String) × List RemoteCall :=
  match clientState with
  | none => (FlowResult.ok (historyMsgs, "", "❌ Set your API key first."), [])
  | some _ =>
    if storeName = "" then
      (FlowResult.ok (historyMsgs, "", "⚠️ Pick or create a store first."), [])
    else
      let q := pyStrip question
      if q = "" then
        (FlowResult.ok (historyMsgs, "", "⚠️ Type a question."), [])
      else
        let mf : Option String :=
          if pyStrip metadataFilter = "" then none else some (pyStrip metadataFilter)
        let model := pyOr modelId DEFAULT_MODEL
        match generate model q [storeName] mf with
        | Except.error e =>
          (FlowResult.raised e, [RemoteCall.generateContent model q [storeName] mf])
        | Except.ok resp =>
          let answer := pyOr (resp.text.getD "") "No answer text."
          let history := (historyMsgs.getD []) ++ [⟨"user", q⟩, ⟨"assistant", answer⟩]
          (FlowResult.ok (some history, renderGrounding resp.grounding, "✅ Done."),
           [RemoteCall.generateContent model q [storeName] mf])

/-- Chunking configuration construction in `upload_and_index`
(src/app.py lines 196-204): omitted when both parameters are falsy, otherwise
built from `int(max_tokens or 200)` and `int(overlap_tokens or 20)`. -/
def chunkingConfigOf (maxTokens overlapTokens : Option Int) : Option ChunkingConfig :=
  if intFalsy maxTokens && intFalsy overlapTokens then none
  else some ⟨⟨intOr maxTokens 200, intOr overlapTokens 20⟩⟩

/-- The upload config display name `(display_file_name.strip() or None) if
display_file_name else None` (src/app.py line 209). -/
def uploadDisplayNameOf (displayFileName : String) : Option String :=
  if displayFileName = "" then none
  else if pyStrip displayFileName = "" then none
  else some (pyStrip displayFileName)

/-- The `UploadToFileSearchStoreConfig` computed by `upload_and_index`
(src/app.py lines 206-211): present only when a display file name or a
chunking config is. -/
def uploadConfigOf (displayFileName : String) (chunkCfg : Option ChunkingConfig) :
    Option UploadConfig :=
  if displayFileName ≠ "" ∨ chunkCfg.isSome then
    some ⟨uploadDisplayNameOf displayFileName, chunkCfg⟩
  else none

/-- One yielded snapshot of `upload_and_index`: the `op_summary` code box
value (`none` = no update of the value), the markdown status, and the
(integer) percentage and caption handed to `_progress_html`. -/
structure UploadYield where
  opSummary : Option String
  status : String
  pct : Nat
  progressText : String
deriving Repr, DecidableEq

/-- The snapshot yielded by iteration `t` (the value of `tick`) of the poll
loop of `upload_and_index` (src/app.py lines 226-231). -/
def uploadSnap (fname : String) (t : Nat) : UploadYield :=
  ⟨some "", "Indexing **" ++ fname ++ "** …", min 95 (5 + t * 3),
   "Indexing " ++ fname ++ " " ++ spinnerAt t⟩

/-- Serialization of the completed operation's response (src/app.py lines
235-236): the payload's `json.dumps` form if a truthy payload is present
(the payload is modeled as its serialized text), else the placeholder. -/
def opTextOf (op : Operation) : String :=
  match op.response with
  | some payload => payload
  | none => "Indexed."

/-- The poll loop of `upload_and_index` (src/app.py lines 224-232): while the
operation is pending, sleep, advance the tick, yield a snapshot, then re-fetch
the operation from the stream. Returns the yielded snapshots, the number of
re-fetches performed, and the final operation (or raised / hang). -/
def uploadPoll (fname : String) (op : Operation)
    (refetches : List (Except Err Operation)) (tick : Nat) :
    List UploadYield × Nat × FlowResult Operation :=
  if op.done then ([], 0, FlowResult.ok op)
  else
    match refetches with
    | [] => ([], 0, FlowResult.hang)
    | Except.error e :: _ => ([uploadSnap fname (tick + 1)], 1, FlowResult.raised e)
    | Except.ok op2 :: rest =>
      let r := uploadPoll fname op2 rest (tick + 1)
      (uploadSnap fname (tick + 1) :: r.1, r.2.1 + 1, r.2.2)

/-- The poll region of `upload_and_index` (src/app.py lines 224-237): the
poll loop followed, on completion, by the final yield carrying the serialized
response and the 100% "Finished" progress snapshot. -/
def uploadPollRegion (storeName fname : String) (op : Operation)
    (refetches : List (Except Err Operation)) :
    List UploadYield × Nat × FlowResult Unit :=
  let r := uploadPoll fname op refetches 0
  match r.2.2 with
  | FlowResult.ok finalOp =>
    (r.1 ++ [⟨some (opTextOf finalOp), "✅ File indexed into `" ++ storeName ++ "`", 100, "Finished"⟩],
     r.2.1, FlowResult.ok ())
  | FlowResult.raised e => (r.1, r.2.1, FlowResult.raised e)
  | FlowResult.hang => (r.1, r.2.1, FlowResult.hang)

/-- `upload_and_index` (src/app.py lines 177-237). `uploadCall` stands for
`file_search_stores.upload_to_file_search_store`; `fileObj` is the uploaded
file's path (`file_obj.name`), `none` when no file was chosen. Returns the
yielded snapshots, the outcome, and the remote calls issued. -/
def upload_and_index
    (uploadCall : String → String → Option UploadConfig → Except Err Operation)
    (refetches : List (Except Err Operation))
    (clientState : Option Client) (storeName : String) (fileObj : Option String)
    (displayFileName : String) (maxTokens overlapTokens : Option Int) :
    List UploadYield × FlowResult Unit × List RemoteCall :=
  match clientState with
  | none =>
    ([⟨some "", "❌ Set your API key first.", 0, "Waiting for API key"⟩], FlowResult.ok (), [])
  | some _ =>
    if storeName = "" then
      ([⟨some "", "⚠️ Create or select a store first.", 0, "Waiting"⟩], FlowResult.ok (), [])
    else
      match fileObj with
      | none =>
        ([⟨some "", "⚠️ Choose a file to upload.", 0, "Waiting"⟩], FlowResult.ok (), [])
      | some filePath =>
        let cfg := uploadConfigOf displayFileName (chunkingConfigOf maxTokens overlapTokens)
        let fname := pathName filePath
        let y0 : UploadYield :=
          ⟨some "", "Uploading **" ++ fname ++ "** …", 5, "Uploading " ++ fname⟩
        match uploadCall filePath storeName cfg with
        | Except.error e =>
          ([y0], FlowResult.raised e, [RemoteCall.uploadToFileSearchStore filePath storeName cfg])
        | Except.ok op =>
          let r := uploadPollRegion storeName fname op refetches
          (y0 :: r.1, r.2.2,
           RemoteCall.uploadToFileSearchStore filePath storeName cfg ::
             List.replicate r.2.1 RemoteCall.getOperation)

/-- One yielded snapshot of `create_store_with_samples`: store_state, status
markdown, the (exact rational) percentage and caption of `_progress_html`,
and the create button update (interactive flag, optional new label). -/
structure SamplesYield where
  storeState : String
  statusMd : String
  pct : ℚ
  progressText : String
  buttonInteractive : Bool
  buttonValue : Option String
deriving Repr, DecidableEq

/-- The final status line of `create_store_with_samples` (src/app.py line
151), selected by whether any catalog document was present. -/
def samplesFinalHeader (anyPresent : Bool) : String :=
  if anyPresent then "✅ Store created and files indexed."
  else "⚠️ Store created. no classics found to index."

/-- The status header of `create_store_with_samples` (src/app.py line 91);
`base.resolve()` is modeled as the path itself. -/
def samplesHeader (storeName displayName base : String) : String :=
  "**Creating store:** `" ++ storeName ++ "` · display name **" ++ displayName ++
    "**\n\n**Folder:** `" ++ base ++ "`\n"

/-- The catalog entries present (existing, regular, non-empty) in the samples
directory (src/app.py line 87); `fileExists` stands for `_file_exists`. -/
def presentSamples (fileExists : String → Bool) (base : String) : List SampleSpec :=
  SAMPLE_FILES.filter (fun spec => fileExists (joinPath base spec.path))

/-- The custom metadata attached on import (src/app.py lines 120-125). -/
def mkMeta (spec : SampleSpec) (p : String) : List CustomMetadata :=
  [⟨"title", some spec.title, none⟩,
   ⟨"author", some spec.author, none⟩,
   ⟨"year", none, some spec.year⟩,
   ⟨"local_path", some p, none⟩]

/-- The snapshot yielded by iteration `t` (the value of `tick`) of the
per-document poll loop of `create_store_with_samples` (src/app.py lines
135-142), with `done_count = dc` documents already indexed out of `total`. -/
def samplesSnap (storeName statusMd pName : String) (dc total : Nat) (t : Nat) : SamplesYield :=
  ⟨storeName, statusMd,
   (dc : ℚ) / (total : ℚ) * 100 + ((min 95 (5 + t * 3) : Nat) : ℚ) / (total : ℚ),
   "Indexing " ++ pName ++ " " ++ spinnerAt t, false, none⟩

/-- The per-document completion snapshot (src/app.py lines 145-149), yielded
after `done_count` has been incremented to `newDc`. -/
def indexedSnap (storeName statusMdAfter pName : String) (newDc total : Nat) : SamplesYield :=
  ⟨storeName, statusMdAfter, ((newDc : Nat) : ℚ) / (total : ℚ) * 100,
   "Indexed " ++ pName, false, none⟩

/-- The per-document poll loop of `create_store_with_samples` (src/app.py
lines 134-143): like `uploadPoll` but yielding `samplesSnap` snapshots. -/
def samplesPoll (storeName statusMd pName : String) (dc total : Nat) (op : Operation)
    (refetches : List (Except Err Operation)) (tick : Nat) :
    List SamplesYield × Nat × FlowResult Operation :=
  if op.done then ([], 0, FlowResult.ok op)
  else
    match refetches with
    | [] => ([], 0, FlowResult.hang)
    | Except.error e :: _ =>
      ([samplesSnap storeName statusMd pName dc total (tick + 1)], 1, FlowResult.raised e)
    | Except.ok op2 :: rest =>
      let r := samplesPoll storeName statusMd pName dc total op2 rest (tick + 1)
      (samplesSnap storeName statusMd pName dc total (tick + 1) :: r.1, r.2.1 + 1, r.2.2)

/-- The per-document poll region of `create_store_with_samples` (src/app.py
lines 133-149): the poll loop followed, on completion, by the "Indexed"
snapshot carrying the incremented done count. `statusMdDuring` is the status
markdown while polling, `statusMdAfter` the one including the new Indexed
log line. -/
def samplesDocRegion (storeName statusMdDuring statusMdAfter pName : String)
    (dc total : Nat) (op : Operation) (refetches : List (Except Err Operation)) :
    List SamplesYield × Nat × FlowResult Operation :=
  let r := samplesPoll storeName statusMdDuring pName dc total op refetches 0
  match r.2.2 with
  | FlowResult.ok finalOp =>
    (r.1 ++ [indexedSnap storeName statusMdAfter pName (dc + 1) total], r.2.1,
     FlowResult.ok finalOp)
  | FlowResult.raised e => (r.1, r.2.1, FlowResult.raised e)
  | FlowResult.hang => (r.1, r.2.1, FlowResult.hang)

/-- The per-document loop body of `create_store_with_samples` (src/app.py
lines 101-149), iterated over the catalog. State: remaining specs, the
catalog index (selecting the re-fetch stream), the accumulated log lines and
the done count. On normal completion returns the final logs and done count. -/
def samplesLoop (uploadFile : String → String → Except Err FileHandle)
    (importFile : String → String → List CustomMetadata → Except Err Operation)
    (refetches : Nat → List (Except Err Operation))
    (fileExists : String → Bool)
    (storeName header base : String) (total : Nat) :
    List SampleSpec → Nat → List String → Nat →
    List SamplesYield × List RemoteCall × FlowResult (List String × Nat)
  | [], _, logs, dc => ([], [], FlowResult.ok (logs, dc))
  | spec :: rest, idx, logs, dc =>
    let p := joinPath base spec.path
    if fileExists p then
      let pn := pathName p
      let logs1 := logs ++ ["• Uploading: " ++ pn]
      let status1 := header ++ String.intercalate "\n" logs1
      let yUp : SamplesYield :=
        ⟨storeName, status1, (dc : ℚ) / (total : ℚ) * 100 + 5, "Uploading " ++ pn, false, none⟩
      match uploadFile p spec.title with
      | Except.error e => ([yUp], [RemoteCall.uploadFile p spec.title], FlowResult.raised e)
      | Except.ok fh =>
        let meta := mkMeta spec p
        match importFile storeName fh.name meta with
        | Except.error e =>
          ([yUp], [RemoteCall.uploadFile p spec.title, RemoteCall.importFile storeName fh.name meta],
           FlowResult.raised e)
        | Except.ok op =>
          let logs2 := logs1 ++
            ["• Indexed: " ++ pn ++ "  (author=" ++ spec.author ++ ", year=" ++ toString spec.year ++ ")"]
          let status2 := header ++ String.intercalate "\n" logs2
          let r := samplesDocRegion storeName status1 status2 pn dc total op (refetches idx)
          let callsHere := RemoteCall.uploadFile p spec.title ::
            RemoteCall.importFile storeName fh.name meta ::
            List.replicate r.2.1 RemoteCall.getOperation
          match r.2.2 with
          | FlowResult.raised e => (yUp :: r.1, callsHere, FlowResult.raised e)
          | FlowResult.hang => (yUp :: r.1, callsHere, FlowResult.hang)
          | FlowResult.ok _ =>
            let res2 := samplesLoop uploadFile importFile refetches fileExists
              storeName header base total rest (idx + 1) logs2 (dc + 1)
            (yUp :: r.1 ++ res2.1, callsHere ++ res2.2.1, res2.2.2)
    else
      let logs1 := logs ++ ["• Missing: " ++ p]
      let status1 := header ++ String.intercalate "\n" logs1
      let y : SamplesYield :=
        ⟨storeName, status1, (dc : ℚ) / (total : ℚ) * 100, "Checking files", false, none⟩
      let res2 := samplesLoop uploadFile importFile refetches fileExists
        storeName header base total rest (idx + 1) logs1 dc
      (y :: res2.1, res2.2.1, res2.2.2)

/-- `create_store_with_samples` (src/app.py lines 70-154). Returns the yielded
snapshots, the outcome, and the remote calls issued. -/
def create_store_with_samples
    (createStore : String → Except Err Store)
    (uploadFile : String → String → Except Err FileHandle)
    (importFile : String → String → List CustomMetadata → Except Err Operation)
    (refetches : Nat → List (Except Err Operation))
    (fileExists : String → Bool)
    (clientState : Option Client) (samplesDir : String) (storeDisplayName : String) :
    List SamplesYield × FlowResult Unit × List RemoteCall :=
  match clientState with
  | none =>
    ([⟨"", "❌ Set your API key first in the section above.", 0, "Waiting for API key", true, none⟩],
     FlowResult.ok (), [])
  | some _ =>
    let displayName := samplesDisplayName storeDisplayName
    match createStore displayName with
    | Except.error e => ([], FlowResult.raised e, [RemoteCall.createStore displayName])
    | Except.ok store =>
      let base := pyOr samplesDir SAMPLES_DIR_DEFAULT
      let present := presentSamples fileExists base
      let total := max present.length 1
      let header := samplesHeader store.name displayName base
      let y0 : SamplesYield :=
        ⟨store.name, header, 1, "Preparing indexing", false, some "Creating…"⟩
      match samplesLoop uploadFile importFile refetches fileExists
          store.name header base total SAMPLE_FILES 0 [] 0 with
      | (ys, calls, FlowResult.raised e) =>
        (y0 :: ys, FlowResult.raised e, RemoteCall.createStore displayName :: calls)
      | (ys, calls, FlowResult.hang) =>
        (y0 :: ys, FlowResult.hang, RemoteCall.createStore displayName :: calls)
      | (ys, calls, FlowResult.ok (logs, _)) =>
        let statusFinal := samplesFinalHeader (!present.isEmpty) ++ "\n\n" ++
          (header ++ String.intercalate "\n" logs)
        (y0 :: ys ++ [⟨store.name, statusFinal, 100, "Finished", false, some "Store created"⟩],
         FlowResult.ok (), RemoteCall.createStore displayName :: calls)

/-! ### Theorems -/

/-- C3: for every conversation history and every precondition-failing input to
the query flow — missing credential, missing (empty) store reference, or
blank/whitespace-only question — `ask` returns the conversation history it was
passed, unchanged, and issues no remote generate call. -/
theorem C3_ask_precondition_failures
    (generate : String → String → List String → Option String → Except Err GenResponse)
    (hist : Option (List ChatMsg)) (q1 qb store modelId mf : String) (c : Client)
    (hstore : store ≠ "") (hqb : pyStrip qb = "") :
    ask generate none store hist q1 modelId mf =
      (FlowResult.ok (hist, "", "❌ Set your API key first."), []) ∧
    ask generate (some c) "" hist q1 modelId mf =
      (FlowResult.ok (hist, "", "⚠️ Pick or create a store first."), []) ∧
    ask generate (some c) store hist qb modelId mf =
      (FlowResult.ok (hist, "", "⚠️ Type a question."), []) := by
  refine ⟨rfl, by simp [ask], ?_⟩
  simp [ask, hstore, hqb]

theorem C3_ask_precondition_failures_witness :
    ask (fun _ _ _ _ => Except.error "boom") none "s1" (some [⟨"user", "old"⟩]) "hi" "" "" =
      (FlowResult.ok (some [⟨"user", "old"⟩], "", "❌ Set your API key first."), []) ∧
    ask (fun _ _ _ _ => Except.error "boom") (some ⟨"k"⟩) "" (some [⟨"user", "old"⟩]) "hi" "" "" =
      (FlowResult.ok (some [⟨"user", "old"⟩], "", "⚠️ Pick or create a store first."), []) ∧
    ask (fun _ _ _ _ => Except.error "boom") (some ⟨"k"⟩) "s1" (some [⟨"user", "old"⟩]) "  " "" "" =
      (FlowResult.ok (some [⟨"user", "old"⟩], "", "⚠️ Type a question."), []) :=
  C3_ask_precondition_failures (fun _ _ _ _ => Except.error "boom")
    (some [⟨"user", "old"⟩]) "hi" "  " "s1" "" "" ⟨"k"⟩ (by decide) (by decide)

/-- C4: with max tokens and overlap both zero/missing, no chunking
configuration is constructed; with either non-zero, one is constructed
carrying exactly the supplied values, a zero/missing max-tokens defaulting to
200 and a zero/missing overlap defaulting to 20. -/
theorem C4_chunking_config (m o : Int) (hm : m ≠ 0) (ho : o ≠ 0) :
    chunkingConfigOf (some 0) (some 0) = none ∧
    chunkingConfigOf none none = none ∧
    chunkingConfigOf none (some 0) = none ∧
    chunkingConfigOf (some 0) none = none ∧
    chunkingConfigOf (some m) (some o) = some ⟨⟨m, o⟩⟩ ∧
    chunkingConfigOf (some 0) (some o) = some ⟨⟨200, o⟩⟩ ∧
    chunkingConfigOf none (some o) = some ⟨⟨200, o⟩⟩ ∧
    chunkingConfigOf (some m) (some 0) = some ⟨⟨m, 20⟩⟩ ∧
    chunkingConfigOf (some m) none = some ⟨⟨m, 20⟩⟩ := by
  refine ⟨rfl, rfl, rfl, rfl, ?_, ?_, ?_, ?_, ?_⟩ <;>
    simp [chunkingConfigOf, intFalsy, intOr, hm, ho]

theorem C4_chunking_config_witness :
    chunkingConfigOf (some 0) (some 0) = none ∧
    chunkingConfigOf none none = none ∧
    chunkingConfigOf none (some 0) = none ∧
    chunkingConfigOf (some 0) none = none ∧
    chunkingConfigOf (some 7) (some 3) = some ⟨⟨7, 3⟩⟩ ∧
    chunkingConfigOf (some 0) (some 3) = some ⟨⟨200, 3⟩⟩ ∧
    chunkingConfigOf none (some 3) = some ⟨⟨200, 3⟩⟩ ∧
    chunkingConfigOf (some 7) (some 0) = some ⟨⟨7, 20⟩⟩ ∧
    chunkingConfigOf (some 7) none = some ⟨⟨7, 20⟩⟩ :=
  C4_chunking_config 7 3 (by decide) (by decide)

/-- C6: the single-file ingestion flow checks missing credential, then missing
store selection, then missing file; each violation yields exactly one distinct
user-facing warning with zero progress, returns normally, and issues no
remote call. -/
theorem C6_upload_preconditions
    (uploadCall : String → String → Option UploadConfig → Except Err Operation)
    (refetches : List (Except Err Operation)) (store1 storeh : String)
    (fileO : Option String) (dfn : String) (mt ot : Option Int) (c : Client)
    (hs : storeh ≠ "") :
    upload_and_index uploadCall refetches none store1 fileO dfn mt ot =
      ([⟨some "", "❌ Set your API key first.", 0, "Waiting for API key"⟩], FlowResult.ok (), []) ∧
    upload_and_index uploadCall refetches (some c) "" fileO dfn mt ot =
      ([⟨some "", "⚠️ Create or select a store first.", 0, "Waiting"⟩], FlowResult.ok (), []) ∧
    upload_and_index uploadCall refetches (some c) storeh none dfn mt ot =
      ([⟨some "", "⚠️ Choose a file to upload.", 0, "Waiting"⟩], FlowResult.ok (), []) ∧
    ("❌ Set your API key first." ≠ "⚠️ Create or select a store first." ∧
     "❌ Set your API key first." ≠ "⚠️ Choose a file to upload." ∧
     "⚠️ Create or select a store first." ≠ "⚠️ Choose a file to upload.") := by
  refine ⟨rfl, by simp [upload_and_index], ?_, by decide, by decide, by decide⟩
  simp [upload_and_index, hs]

theorem C6_upload_preconditions_witness :
    upload_and_index (fun _ _ _ => Except.error "boom") [] none "s0" (some "/tmp/a.txt") "" none none =
      ([⟨some "", "❌ Set your API key first.", 0, "Waiting for API key"⟩], FlowResult.ok (), []) ∧
    upload_and_index (fun _ _ _ => Except.error "boom") [] (some ⟨"k"⟩) "" (some "/tmp/a.txt") "" none none =
      ([⟨some "", "⚠️ Create or select a store first.", 0, "Waiting"⟩], FlowResult.ok (), []) ∧
    upload_and_index (fun _ _ _ => Except.error "boom") [] (some ⟨"k"⟩) "s1" none "" none none =
      ([⟨some "", "⚠️ Choose a file to upload.", 0, "Waiting"⟩], FlowResult.ok (), []) ∧
    ("❌ Set your API key first." ≠ "⚠️ Create or select a store first." ∧
     "❌ Set your API key first." ≠ "⚠️ Choose a file to upload." ∧
     "⚠️ Create or select a store first." ≠ "⚠️ Choose a file to upload.") :=
  C6_upload_preconditions (fun _ _ _ => Except.error "boom") [] "s0" "s1"
    (some "/tmp/a.txt") "" none none ⟨"k"⟩ (by decide)

/-- C2: for every empty or whitespace-only credential no client is
constructed (the key handler returns no client and a credential-required
message without invoking the constructor), and with no client every store
operation and the query operation returns its credential-required failure
message and issues no remote call. -/
theorem C2_blank_credential
    (apiKey : String) (clientInit : String → Except Err Client)
    (h : pyStrip apiKey = "")
    (cs : String → Except Err Store) (uf : String → String → Except Err FileHandle)
    (imf : String → String → List CustomMetadata → Except Err Operation)
    (rf : Nat → List (Except Err Operation)) (fx : String → Bool) (dir dn : String)
    (ce : String → Except Err Store) (dn2 : String)
    (gs : String → Except Err Store) (nm : String)
    (uc : String → String → Option UploadConfig → Except Err Operation)
    (rsU : List (Except Err Operation)) (st : String) (fo : Option String)
    (dfn : String) (mt ot : Option Int)
    (ge : String → String → List String → Option String → Except Err GenResponse)
    (stA : String) (hist : Option (List ChatMsg)) (qA mA mfA : String)
    (lc : Except Err (List Store))
    (dc : String → Bool → Except Err Unit) (dname : String) :
    ui_set_api_key clientInit apiKey =
      ((none, "❌ API key required. paste your Gemini key and click Set key."), false) ∧
    create_store_with_samples cs uf imf rf fx none dir dn =
      ([⟨"", "❌ Set your API key first in the section above.", 0, "Waiting for API key", true, none⟩],
       FlowResult.ok (), []) ∧
    make_empty_store ce none dn2 = (FlowResult.ok ("", "❌ Set your API key first."), []) ∧
    set_existing_store gs none nm = (FlowResult.ok ("", "❌ Set your API key first."), []) ∧
    upload_and_index uc rsU none st fo dfn mt ot =
      ([⟨some "", "❌ Set your API key first.", 0, "Waiting for API key"⟩], FlowResult.ok (), []) ∧
    ask ge none stA hist qA mA mfA =
      (FlowResult.ok (hist, "", "❌ Set your API key first."), []) ∧
    list_stores lc none = (FlowResult.ok "❌ Set your API key first.", []) ∧
    delete_store dc none dname = (FlowResult.ok "❌ Set your API key first.", []) := by
  refine ⟨?_, rfl, rfl, rfl, rfl, rfl, rfl, rfl⟩
  simp [ui_set_api_key, h]

theorem C2_blank_credential_witness :
    ui_set_api_key (fun k => Except.ok ⟨k⟩) "   " =
      ((none, "❌ API key required. paste your Gemini key and click Set key."), false) ∧
    create_store_with_samples (fun _ => Except.ok ⟨"st", ""⟩) (fun _ _ => Except.ok ⟨"f"⟩)
      (fun _ _ _ => Except.ok ⟨true, none⟩) (fun _ => []) (fun _ => true) none "samples" "" =
      ([⟨"", "❌ Set your API key first in the section above.", 0, "Waiting for API key", true, none⟩],
       FlowResult.ok (), []) ∧
    make_empty_store (fun _ => Except.ok ⟨"st", ""⟩) none "" =
      (FlowResult.ok ("", "❌ Set your API key first."), []) ∧
    set_existing_store (fun _ => Except.ok ⟨"st", ""⟩) none "fileSearchStores/x" =
      (FlowResult.ok ("", "❌ Set your API key first."), []) ∧
    upload_and_index (fun _ _ _ => Except.ok ⟨true, none⟩) [] none "s1" (some "/tmp/a.txt") "" none none =
      ([⟨some "", "❌ Set your API key first.", 0, "Waiting for API key"⟩], FlowResult.ok (), []) ∧
    ask (fun _ _ _ _ => Except.ok ⟨some "a", Grounding.absent⟩) none "s1" (some []) "q" "" "" =
      (FlowResult.ok (some [], "", "❌ Set your API key first."), []) ∧
    list_stores (Except.ok []) none = (FlowResult.ok "❌ Set your API key first.", []) ∧
    delete_store (fun _ _ => Except.ok ()) none "s1" =
      (FlowResult.ok "❌ Set your API key first.", []) :=
  C2_blank_credential "   " (fun k => Except.ok ⟨k⟩) (by decide)
    (fun _ => Except.ok ⟨"st", ""⟩) (fun _ _ => Except.ok ⟨"f"⟩)
    (fun _ _ _ => Except.ok ⟨true, none⟩) (fun _ => []) (fun _ => true) "samples" ""
    (fun _ => Except.ok ⟨"st", ""⟩) ""
    (fun _ => Except.ok ⟨"st", ""⟩) "fileSearchStores/x"
    (fun _ _ _ => Except.ok ⟨true, none⟩) [] "s1" (some "/tmp/a.txt") "" none none
    (fun _ _ _ _ => Except.ok ⟨some "a", Grounding.absent⟩) "s1" (some []) "q" "" ""
    (Except.ok []) (fun _ _ => Except.ok ()) "s1"

/-- C9: a successful query returns a freshly built history equal to the input
history (a null/absent history being treated as empty) followed by exactly one
appended (user question, assistant answer) pair, all prior entries preserved
in order. -/
theorem C9_history_append
    (generate : String → String → List String → Option String → Except Err GenResponse)
    (c : Client) (st : String) (hist : Option (List ChatMsg))
    (q modelId mf : String) (resp : GenResponse)
    (hst : st ≠ "") (hq : pyStrip q ≠ "")
    (hgen : generate (pyOr modelId DEFAULT_MODEL) (pyStrip q) [st]
      (if pyStrip mf = "" then none else some (pyStrip mf)) = Except.ok resp) :
    (ask generate (some c) st hist q modelId mf).1 =
      FlowResult.ok (some ((hist.getD []) ++
        [⟨"user", pyStrip q⟩, ⟨"assistant", pyOr (resp.text.getD "") "No answer text."⟩]),
        renderGrounding resp.grounding, "✅ Done.") := by
  simp [ask, hst, hq, hgen]

theorem C9_history_append_witness :
    (ask (fun _ _ _ _ => Except.ok ⟨some "ans", Grounding.absent⟩) (some ⟨"k"⟩) "s1"
        (some [⟨"user", "old"⟩, ⟨"assistant", "oldans"⟩]) " q1 " "" "").1 =
      FlowResult.ok (some (((some [⟨"user", "old"⟩, ⟨"assistant", "oldans"⟩] :
          Option (List ChatMsg)).getD []) ++
        [⟨"user", pyStrip " q1 "⟩,
         ⟨"assistant", pyOr (((⟨some "ans", Grounding.absent⟩ : GenResponse).text).getD "") "No answer text."⟩]),
        renderGrounding (⟨some "ans", Grounding.absent⟩ : GenResponse).grounding, "✅ Done.") :=
  C9_history_append (fun _ _ _ _ => Except.ok ⟨some "ans", Grounding.absent⟩) ⟨"k"⟩ "s1"
    (some [⟨"user", "old"⟩, ⟨"assistant", "oldans"⟩]) " q1 " "" ""
    ⟨some "ans", Grounding.absent⟩ (by decide) (by decide) rfl

/-- C8 counterexample: the metadata filter is not passed through verbatim —
a filter with surrounding whitespace is sent stripped. Here the supplied
filter " year=1813 " is sent to the retrieval tool as "year=1813". -/
theorem C8_metadata_filter_counterexample :
    (ask (fun _ _ _ _ => Except.ok ⟨some "a", Grounding.absent⟩) (some ⟨"k"⟩) "s1" none
        "q" "" " year=1813 ").2 =
      [RemoteCall.generateContent DEFAULT_MODEL "q" ["s1"] (some "year=1813")] ∧
    " year=1813 " ≠ "year=1813" := ⟨rfl, by decide⟩

/-- C8 (amended): the metadata filter is stripped of surrounding whitespace
and otherwise passed through unvalidated to the remote retrieval tool; an
empty or whitespace-only filter is treated as "no filter" (no filter sent). -/
theorem C8_metadata_filter
    (generate : String → String → List String → Option String → Except Err GenResponse)
    (c : Client) (st : String) (hist : Option (List ChatMsg))
    (q modelId mf mfb : String)
    (hst : st ≠ "") (hq : pyStrip q ≠ "") (hb : pyStrip mfb = "") :
    (ask generate (some c) st hist q modelId mf).2 =
      [RemoteCall.generateContent (pyOr modelId DEFAULT_MODEL) (pyStrip q) [st]
        (if pyStrip mf = "" then none else some (pyStrip mf))] ∧
    (ask generate (some c) st hist q modelId mfb).2 =
      [RemoteCall.generateContent (pyOr modelId DEFAULT_MODEL) (pyStrip q) [st] none] := by
  constructor
  · rcases hgen : generate (pyOr modelId DEFAULT_MODEL) (pyStrip q) [st]
      (if pyStrip mf = "" then none else some (pyStrip mf)) with e | r <;>
      simp [ask, hst, hq, hgen]
  · rcases hgen : generate (pyOr modelId DEFAULT_MODEL) (pyStrip q) [st] none with e | r <;>
      simp [ask, hst, hq, hb, hgen]

theorem C8_metadata_filter_witness :
    (ask (fun _ _ _ _ => Except.ok ⟨some "a", Grounding.absent⟩) (some ⟨"k"⟩) "s1" none
        "q" "" " author=\"Jane Austen\" ").2 =
      [RemoteCall.generateContent (pyOr "" DEFAULT_MODEL) (pyStrip "q") ["s1"]
        (if pyStrip " author=\"Jane Austen\" " = "" then none
         else some (pyStrip " author=\"Jane Austen\" "))] ∧
    (ask (fun _ _ _ _ => Except.ok ⟨some "a", Grounding.absent⟩) (some ⟨"k"⟩) "s1" none
        "q" "" "  ").2 =
      [RemoteCall.generateContent (pyOr "" DEFAULT_MODEL) (pyStrip "q") ["s1"] none] :=
  C8_metadata_filter (fun _ _ _ _ => Except.ok ⟨some "a", Grounding.absent⟩) ⟨"k"⟩ "s1" none
    "q" "" " author=\"Jane Austen\" " "  " (by decide) (by decide) (by decide)

/-- C10: a blank store display name is replaced by "file-search-samples"
(create-from-known-documents) respectively "file-search-uploads"
(create-empty) before the create call; a non-blank name is used stripped of
surrounding whitespace. -/
theorem C10_display_name_defaults
    (sb sn : String) (hb : pyStrip sb = "") (hn : pyStrip sn ≠ "")
    (createE createE2 : String → Except Err Store) (c : Client)
    (cs2 : String → Except Err Store) (uf2 : String → String → Except Err FileHandle)
    (imf2 : String → String → List CustomMetadata → Except Err Operation)
    (rf2 : Nat → List (Except Err Operation)) (fx2 : String → Bool) (dir2 : String) :
    samplesDisplayName sb = "file-search-samples" ∧
    uploadsDisplayName sb = "file-search-uploads" ∧
    samplesDisplayName sn = pyStrip sn ∧
    uploadsDisplayName sn = pyStrip sn ∧
    (make_empty_store createE (some c) sb).2 = [RemoteCall.createStore "file-search-uploads"] ∧
    (make_empty_store createE2 (some c) sn).2 = [RemoteCall.createStore (pyStrip sn)] ∧
    (create_store_with_samples cs2 uf2 imf2 rf2 fx2 (some c) dir2 sb).2.2.head? =
      some (RemoteCall.createStore "file-search-samples") := by
  have h1 : samplesDisplayName sb = "file-search-samples" := by
    simp [samplesDisplayName, pyOr, hb]
  have h2 : uploadsDisplayName sb = "file-search-uploads" := by
    simp [uploadsDisplayName, pyOr, hb]
  have h3 : samplesDisplayName sn = pyStrip sn := by
    simp [samplesDisplayName, pyOr, hn]
  have h4 : uploadsDisplayName sn = pyStrip sn := by
    simp [uploadsDisplayName, pyOr, hn]
  refine ⟨h1, h2, h3, h4, ?_, ?_, ?_⟩
  · simp only [make_empty_store, h2]
    cases createE "file-search-uploads" <;> simp
  · simp only [make_empty_store, h4]
    cases createE2 (pyStrip sn) <;> simp
  · simp only [create_store_with_samples, h1]
    cases hc : cs2 "file-search-samples" with
    | error e => simp
    | ok store =>
      rcases hL : samplesLoop uf2 imf2 rf2 fx2 store.name
          (samplesHeader store.name "file-search-samples" (pyOr dir2 SAMPLES_DIR_DEFAULT))
          (pyOr dir2 SAMPLES_DIR_DEFAULT)
          (max (presentSamples fx2 (pyOr dir2 SAMPLES_DIR_DEFAULT)).length 1)
          SAMPLE_FILES 0 [] 0 with ⟨ys, calls, res⟩
      cases res <;> simp [hL]

theorem C10_display_name_defaults_witness :
    samplesDisplayName " " = "file-search-samples" ∧
    uploadsDisplayName " " = "file-search-uploads" ∧
    samplesDisplayName " My Store " = pyStrip " My Store " ∧
    uploadsDisplayName " My Store " = pyStrip " My Store " ∧
    (make_empty_store (fun _ => Except.ok ⟨"st", ""⟩) (some ⟨"k"⟩) " ").2 =
      [RemoteCall.createStore "file-search-uploads"] ∧
    (make_empty_store (fun _ => Except.ok ⟨"st", ""⟩) (some ⟨"k"⟩) " My Store ").2 =
      [RemoteCall.createStore (pyStrip " My Store ")] ∧
    (create_store_with_samples (fun _ => Except.ok ⟨"st", ""⟩) (fun _ _ => Except.ok ⟨"f"⟩)
        (fun _ _ _ => Except.ok ⟨true, none⟩) (fun _ => []) (fun _ => false)
        (some ⟨"k"⟩) "" " ").2.2.head? =
      some (RemoteCall.createStore "file-search-samples") :=
  C10_display_name_defaults " " " My Store " (by decide) (by decide)
    (fun _ => Except.ok ⟨"st", ""⟩) (fun _ => Except.ok ⟨"st", ""⟩) ⟨"k"⟩
    (fun _ => Except.ok ⟨"st", ""⟩) (fun _ _ => Except.ok ⟨"f"⟩)
    (fun _ _ _ => Except.ok ⟨true, none⟩) (fun _ => []) (fun _ => false) ""

/-- C7: exceptions raised while binding to an existing store and while
deleting a store are caught and turned into a user-facing failure message
(the operation returns normally), whereas exceptions raised during store
creation (both creation flows), file upload, import, status polling, and
query generation propagate uncaught out of the flow. -/
theorem C7_exception_handling
    (c : Client)
    (gs1 : String → Except Err Store) (nm1 e1 : String)
    (hnm1 : pyStrip nm1 ≠ "") (hg1 : gs1 (pyStrip nm1) = Except.error e1)
    (dc1 : String → Bool → Except Err Unit) (sn1 e2 : String)
    (hsn1 : sn1 ≠ "") (hd1 : dc1 sn1 true = Except.error e2)
    (cs3 : String → Except Err Store)
    (uf3 : String → String → Except Err FileHandle)
    (imf3 : String → String → List CustomMetadata → Except Err Operation)
    (rf3 : Nat → List (Except Err Operation)) (fx3 : String → Bool) (dir3 dn3 e3 : String)
    (hc3 : cs3 (samplesDisplayName dn3) = Except.error e3)
    (ce3 : String → Except Err Store) (dn4 e4 : String)
    (hc4 : ce3 (uploadsDisplayName dn4) = Except.error e4)
    (cs5 : String → Except Err Store) (store5 : Store) (dn5 e5 : String)
    (uf5 : String → String → Except Err FileHandle)
    (imf5 : String → String → List CustomMetadata → Except Err Operation)
    (rf5 : Nat → List (Except Err Operation)) (fx5 : String → Bool)
    (hc5 : cs5 (samplesDisplayName dn5) = Except.ok store5)
    (hfx5 : fx5 (joinPath SAMPLES_DIR_DEFAULT "Pride_and_Prejudice.txt") = true)
    (hu5 : uf5 (joinPath SAMPLES_DIR_DEFAULT "Pride_and_Prejudice.txt") "Pride and Prejudice" =
      Except.error e5)
    (cs6 : String → Except Err Store) (store6 : Store) (dn6 e6 : String)
    (uf6 : String → String → Except Err FileHandle) (fh6 : FileHandle)
    (imf6 : String → String → List CustomMetadata → Except Err Operation)
    (rf6 : Nat → List (Except Err Operation)) (fx6 : String → Bool)
    (hc6 : cs6 (samplesDisplayName dn6) = Except.ok store6)
    (hfx6 : fx6 (joinPath SAMPLES_DIR_DEFAULT "Pride_and_Prejudice.txt") = true)
    (hu6 : uf6 (joinPath SAMPLES_DIR_DEFAULT "Pride_and_Prejudice.txt") "Pride and Prejudice" =
      Except.ok fh6)
    (himp6 : imf6 store6.name fh6.name
        (mkMeta ⟨"Pride_and_Prejudice.txt", "Pride and Prejudice", "Jane Austen", 1813⟩
          (joinPath SAMPLES_DIR_DEFAULT "Pride_and_Prejudice.txt")) = Except.error e6)
    (uc7 : String → String → Option UploadConfig → Except Err Operation)
    (rs7 : List (Except Err Operation)) (fp7 st7 dfn7 e7 : String) (mt7 ot7 : Option Int)
    (hst7 : st7 ≠ "")
    (hu7 : uc7 fp7 st7 (uploadConfigOf dfn7 (chunkingConfigOf mt7 ot7)) = Except.error e7)
    (uc8 : String → String → Option UploadConfig → Except Err Operation)
    (tl8 : List (Except Err Operation)) (fp8 st8 dfn8 e8 : String) (mt8 ot8 : Option Int)
    (hst8 : st8 ≠ "")
    (hu8 : uc8 fp8 st8 (uploadConfigOf dfn8 (chunkingConfigOf mt8 ot8)) =
      Except.ok ⟨false, none⟩)
    (ge9 : String → String → List String → Option String → Except Err GenResponse)
    (st9 q9 m9 mf9 e9 : String) (hist9 : Option (List ChatMsg))
    (hst9 : st9 ≠ "") (hq9 : pyStrip q9 ≠ "")
    (hg9 : ge9 (pyOr m9 DEFAULT_MODEL) (pyStrip q9) [st9]
      (if pyStrip mf9 = "" then none else some (pyStrip mf9)) = Except.error e9) :
    set_existing_store gs1 (some c) nm1 =
      (FlowResult.ok ("", "❌ Could not get store. " ++ e1), [RemoteCall.getStore (pyStrip nm1)]) ∧
    delete_store dc1 (some c) sn1 =
      (FlowResult.ok ("❌ Delete failed. " ++ e2), [RemoteCall.deleteStore sn1 true]) ∧
    create_store_with_samples cs3 uf3 imf3 rf3 fx3 (some c) dir3 dn3 =
      ([], FlowResult.raised e3, [RemoteCall.createStore (samplesDisplayName dn3)]) ∧
    make_empty_store ce3 (some c) dn4 =
      (FlowResult.raised e4, [RemoteCall.createStore (uploadsDisplayName dn4)]) ∧
    (create_store_with_samples cs5 uf5 imf5 rf5 fx5 (some c) "" dn5).2.1 =
      FlowResult.raised e5 ∧
    (create_store_with_samples cs6 uf6 imf6 rf6 fx6 (some c) "" dn6).2.1 =
      FlowResult.raised e6 ∧
    (upload_and_index uc7 rs7 (some c) st7 (some fp7) dfn7 mt7 ot7).2.1 =
      FlowResult.raised e7 ∧
    (upload_and_index uc8 (Except.error e8 :: tl8) (some c) st8 (some fp8) dfn8 mt8 ot8).2.1 =
      FlowResult.raised e8 ∧
    (ask ge9 (some c) st9 hist9 q9 m9 mf9).1 = FlowResult.raised e9 := by
  refine ⟨?_, ?_, ?_, ?_, ?_, ?_, ?_, ?_, ?_⟩
  · simp [set_existing_store, hnm1, hg1]
  · simp [delete_store, hsn1, hd1]
  · simp [create_store_with_samples, hc3]
  · simp [make_empty_store, hc4]
  · simp only [create_store_with_samples, hc5]
    simp [samplesLoop, SAMPLE_FILES, pyOr, hfx5, hu5]
  · simp only [create_store_with_samples, hc6]
    simp [samplesLoop, SAMPLE_FILES, pyOr, hfx6, hu6, himp6]
  · simp [upload_and_index, hst7, hu7]
  · simp [upload_and_index, hst8, hu8, uploadPollRegion, uploadPoll]
  · simp [ask, hst9, hq9, hg9]

theorem C7_exception_handling_witness :
    set_existing_store (fun _ => Except.error "E1") (some ⟨"k"⟩) "fileSearchStores/x" =
      (FlowResult.ok ("", "❌ Could not get store. " ++ "E1"),
       [RemoteCall.getStore (pyStrip "fileSearchStores/x")]) ∧
    delete_store (fun _ _ => Except.error "E2") (some ⟨"k"⟩) "s1" =
      (FlowResult.ok ("❌ Delete failed. " ++ "E2"), [RemoteCall.deleteStore "s1" true]) ∧
    create_store_with_samples (fun _ => Except.error "E3") (fun _ _ => Except.ok ⟨"f"⟩)
        (fun _ _ _ => Except.ok ⟨true, none⟩) (fun _ => []) (fun _ => true)
        (some ⟨"k"⟩) "d" "" =
      ([], FlowResult.raised "E3", [RemoteCall.createStore (samplesDisplayName "")]) ∧
    make_empty_store (fun _ => Except.error "E4") (some ⟨"k"⟩) "" =
      (FlowResult.raised "E4", [RemoteCall.createStore (uploadsDisplayName "")]) ∧
    (create_store_with_samples (fun _ => Except.ok ⟨"st5", ""⟩) (fun _ _ => Except.error "E5")
        (fun _ _ _ => Except.ok ⟨true, none⟩) (fun _ => []) (fun _ => true)
        (some ⟨"k"⟩) "" "").2.1 = FlowResult.raised "E5" ∧
    (create_store_with_samples (fun _ => Except.ok ⟨"st6", ""⟩) (fun _ _ => Except.ok ⟨"files/f1"⟩)
        (fun _ _ _ => Except.error "E6") (fun _ => []) (fun _ => true)
        (some ⟨"k"⟩) "" "").2.1 = FlowResult.raised "E6" ∧
    (upload_and_index (fun _ _ _ => Except.error "E7") [] (some ⟨"k"⟩) "s7"
        (some "/tmp/a.txt") "" none none).2.1 = FlowResult.raised "E7" ∧
    (upload_and_index (fun _ _ _ => Except.ok ⟨false, none⟩) [Except.error "E8"] (some ⟨"k"⟩)
        "s8" (some "/tmp/a.txt") "" none none).2.1 = FlowResult.raised "E8" ∧
    (ask (fun _ _ _ _ => Except.error "E9") (some ⟨"k"⟩) "s9" none "q" "" "").1 =
      FlowResult.raised "E9" :=
  C7_exception_handling ⟨"k"⟩
    (fun _ => Except.error "E1") "fileSearchStores/x" "E1" (by decide) rfl
    (fun _ _ => Except.error "E2") "s1" "E2" (by decide) rfl
    (fun _ => Except.error "E3") (fun _ _ => Except.ok ⟨"f"⟩)
    (fun _ _ _ => Except.ok ⟨true, none⟩) (fun _ => []) (fun _ => true) "d" "" "E3" rfl
    (fun _ => Except.error "E4") "" "E4" rfl
    (fun _ => Except.ok ⟨"st5", ""⟩) ⟨"st5", ""⟩ "" "E5" (fun _ _ => Except.error "E5")
    (fun _ _ _ => Except.ok ⟨true, none⟩) (fun _ => []) (fun _ => true) rfl rfl rfl
    (fun _ => Except.ok ⟨"st6", ""⟩) ⟨"st6", ""⟩ "" "E6" (fun _ _ => Except.ok ⟨"files/f1"⟩)
    ⟨"files/f1"⟩ (fun _ _ _ => Except.error "E6") (fun _ => []) (fun _ => true) rfl rfl rfl rfl
    (fun _ _ _ => Except.error "E7") [] "/tmp/a.txt" "s7" "" "E7" none none (by decide) rfl
    (fun _ _ _ => Except.ok ⟨false, none⟩) [] "/tmp/a.txt" "s8" "" "E8" none none (by decide) rfl
    (fun _ _ _ _ => Except.error "E9") "s9" "q" "" "" "E9" none (by decide) (by decide) rfl

/-- The last element of a cons whose tail ends in a singleton. -/
theorem getLast_cons_snoc {α : Type} (a : α) (l : List α) (x : α) :
    (a :: (l ++ [x])).getLast? = some x := by
  rw [← List.cons_append, List.getLast?_concat]

/-- Taking the length of the leftmost summand of a double string append. -/
theorem take_data_append2 (a b c : String) :
    ((a ++ b) ++ c).data.take a.data.length = a.data := by
  rw [String.data_append, String.data_append, List.append_assoc, List.take_left]

/-- C5: create-from-known-documents always issues the store creation call, and
every completed run's final snapshot carries the created store's resource name,
100% progress, and a status message beginning with the label selected by
catalog presence — the distinct warning-marked degraded-success label when no
catalog document was present, the success label exactly when at least one
was. -/
theorem C5_degraded_success
    (cs : String → Except Err Store) (uf : String → String → Except Err FileHandle)
    (imf : String → String → List CustomMetadata → Except Err Operation)
    (rf : Nat → List (Except Err Operation)) (fx : String → Bool)
    (dir sdn : String) (store : Store) (c : Client)
    (hcr : cs (samplesDisplayName sdn) = Except.ok store)
    (hok : (create_store_with_samples cs uf imf rf fx (some c) dir sdn).2.1 = FlowResult.ok ()) :
    (create_store_with_samples cs uf imf rf fx (some c) dir sdn).2.2.head? =
      some (RemoteCall.createStore (samplesDisplayName sdn)) ∧
    ((create_store_with_samples cs uf imf rf fx (some c) dir sdn).1.getLast?).map
        (fun y => y.storeState) = some store.name ∧
    ((create_store_with_samples cs uf imf rf fx (some c) dir sdn).1.getLast?).map
        (fun y => y.pct) = some 100 ∧
    ((create_store_with_samples cs uf imf rf fx (some c) dir sdn).1.getLast?).map
        (fun y => y.statusMd.data.take
          (samplesFinalHeader (!(presentSamples fx (pyOr dir SAMPLES_DIR_DEFAULT)).isEmpty)).data.length) =
      some (samplesFinalHeader (!(presentSamples fx (pyOr dir SAMPLES_DIR_DEFAULT)).isEmpty)).data ∧
    samplesFinalHeader true ≠ samplesFinalHeader false := by
  rcases hL : samplesLoop uf imf rf fx store.name
      (samplesHeader store.name (samplesDisplayName sdn) (pyOr dir SAMPLES_DIR_DEFAULT))
      (pyOr dir SAMPLES_DIR_DEFAULT)
      (max (presentSamples fx (pyOr dir SAMPLES_DIR_DEFAULT)).length 1)
      SAMPLE_FILES 0 [] 0 with ⟨ys, calls, res⟩
  cases res with
  | raised e => simp [create_store_with_samples, hcr, hL] at hok
  | hang => simp [create_store_with_samples, hcr, hL] at hok
  | ok p =>
    obtain ⟨logs, dc⟩ := p
    refine ⟨?_, ?_, ?_, ?_, by decide⟩ <;>
      simp [create_store_with_samples, hcr, hL, getLast_cons_snoc, take_data_append2]

theorem C5_degraded_success_witness :
    (create_store_with_samples (fun _ => Except.ok ⟨"fileSearchStores/abc", ""⟩)
        (fun _ _ => Except.error "x") (fun _ _ _ => Except.error "x") (fun _ => [])
        (fun _ => false) (some ⟨"k"⟩) "" "").2.2.head? =
      some (RemoteCall.createStore (samplesDisplayName "")) ∧
    ((create_store_with_samples (fun _ => Except.ok ⟨"fileSearchStores/abc", ""⟩)
        (fun _ _ => Except.error "x") (fun _ _ _ => Except.error "x") (fun _ => [])
        (fun _ => false) (some ⟨"k"⟩) "" "").1.getLast?).map (fun y => y.storeState) =
      some (Store.mk "fileSearchStores/abc" "").name ∧
    ((create_store_with_samples (fun _ => Except.ok ⟨"fileSearchStores/abc", ""⟩)
        (fun _ _ => Except.error "x") (fun _ _ _ => Except.error "x") (fun _ => [])
        (fun _ => false) (some ⟨"k"⟩) "" "").1.getLast?).map (fun y => y.pct) = some 100 ∧
    ((create_store_with_samples (fun _ => Except.ok ⟨"fileSearchStores/abc", ""⟩)
        (fun _ _ => Except.error "x") (fun _ _ _ => Except.error "x") (fun _ => [])
        (fun _ => false) (some ⟨"k"⟩) "" "").1.getLast?).map
        (fun y => y.statusMd.data.take
          (samplesFinalHeader (!(presentSamples (fun _ => false) (pyOr "" SAMPLES_DIR_DEFAULT)).isEmpty)).data.length) =
      some (samplesFinalHeader (!(presentSamples (fun _ => false) (pyOr "" SAMPLES_DIR_DEFAULT)).isEmpty)).data ∧
    samplesFinalHeader true ≠ samplesFinalHeader false :=
  C5_degraded_success (fun _ => Except.ok ⟨"fileSearchStores/abc", ""⟩)
    (fun _ _ => Except.error "x") (fun _ _ _ => Except.error "x") (fun _ => [])
    (fun _ => false) "" "" ⟨"fileSearchStores/abc", ""⟩ ⟨"k"⟩ rfl rfl

/-- The list of tick values `s, s+1, ..., s+n-1`. -/
def tickList (s n : Nat) : List Nat :=
  match n with
  | 0 => []
  | m + 1 => s :: tickList (s + 1) m

@[simp] theorem tickList_zero (s : Nat) : tickList s 0 = [] := rfl

@[simp] theorem tickList_succ (s m : Nat) : tickList s (m + 1) = s :: tickList (s + 1) m := rfl

@[simp] theorem tickList_length (s n : Nat) : (tickList s n).length = n := by
  induction n generalizing s with
  | zero => rfl
  | succ m ih => simp [tickList, ih]

/-- The upload poll loop returns immediately on a completed operation. -/
theorem uploadPoll_done (fname : String) (op : Operation)
    (rs : List (Except Err Operation)) (tick : Nat) (hd : op.done = true) :
    uploadPoll fname op rs tick = ([], 0, FlowResult.ok op) := by
  rw [uploadPoll.eq_def]
  simp [hd]

/-- Closed form of the upload poll loop on a pending operation whose re-fetch
stream returns pending operations `pending` and then a completed one `dop`:
one snapshot per re-fetch, at ticks `tick+1, ..., tick+N`. -/
theorem uploadPoll_closed (fname : String) :
    ∀ (pending : List Operation) (dop op0 : Operation) (tick : Nat)
      (rest : List (Except Err Operation)),
      (∀ o ∈ pending, o.done = false) → dop.done = true → op0.done = false →
      uploadPoll fname op0 ((pending ++ [dop]).map Except.ok ++ rest) tick =
        ((tickList (tick + 1) (pending.length + 1)).map (uploadSnap fname),
         pending.length + 1, FlowResult.ok dop) := by
  intro pending
  induction pending with
  | nil =>
    intro dop op0 tick rest hp hd h0
    rw [uploadPoll.eq_def]
    simp [h0, uploadPoll_done fname dop rest (tick + 1) hd]
  | cons p ps ih =>
    intro dop op0 tick rest hp hd h0
    have hps : ∀ o ∈ ps, o.done = false := fun o ho => hp o (List.mem_cons_of_mem _ ho)
    have hpd : p.done = false := hp p (List.mem_cons_self _ _)
    have ihx := ih dop p (tick + 1) rest hps hd hpd
    simp only [List.map_append, List.map_cons, List.map_nil, List.append_assoc,
      List.singleton_append, List.nil_append, List.cons_append] at ihx ⊢
    rw [uploadPoll.eq_def]
    simp [h0, ihx, tickList_succ]

/-- Closed form of the upload poll region (loop plus completion snapshot). -/
theorem uploadPollRegion_closed (storeName fname : String) (pending : List Operation)
    (dop op0 : Operation)
    (hp : ∀ o ∈ pending, o.done = false) (hd : dop.done = true) (h0 : op0.done = false) :
    uploadPollRegion storeName fname op0 ((pending ++ [dop]).map Except.ok) =
      ((tickList 1 (pending.length + 1)).map (uploadSnap fname) ++
        [⟨some (opTextOf dop), "✅ File indexed into `" ++ storeName ++ "`", 100, "Finished"⟩],
       pending.length + 1, FlowResult.ok ()) := by
  have h := uploadPoll_closed fname pending dop op0 0 [] hp hd h0
  simp only [List.append_nil] at h
  simp only [uploadPollRegion]
  rw [h]

/-- The per-document poll loop returns immediately on a completed operation. -/
theorem samplesPoll_done (sN sM pN : String) (dc total : Nat) (op : Operation)
    (rs : List (Except Err Operation)) (tick : Nat) (hd : op.done = true) :
    samplesPoll sN sM pN dc total op rs tick = ([], 0, FlowResult.ok op) := by
  rw [samplesPoll.eq_def]
  simp [hd]

/-- Closed form of the per-document poll loop of `create_store_with_samples`. -/
theorem samplesPoll_closed (sN sM pN : String) (dc total : Nat) :
    ∀ (pending : List Operation) (dop op0 : Operation) (tick : Nat)
      (rest : List (Except Err Operation)),
      (∀ o ∈ pending, o.done = false) → dop.done = true → op0.done = false →
      samplesPoll sN sM pN dc total op0 ((pending ++ [dop]).map Except.ok ++ rest) tick =
        ((tickList (tick + 1) (pending.length + 1)).map (samplesSnap sN sM pN dc total),
         pending.length + 1, FlowResult.ok dop) := by
  intro pending
  induction pending with
  | nil =>
    intro dop op0 tick rest hp hd h0
    rw [samplesPoll.eq_def]
    simp [h0, samplesPoll_done sN sM pN dc total dop rest (tick + 1) hd]
  | cons p ps ih =>
    intro dop op0 tick rest hp hd h0
    have hps : ∀ o ∈ ps, o.done = false := fun o ho => hp o (List.mem_cons_of_mem _ ho)
    have hpd : p.done = false := hp p (List.mem_cons_self _ _)
    have ihx := ih dop p (tick + 1) rest hps hd hpd
    simp only [List.map_append, List.map_cons, List.map_nil, List.append_assoc,
      List.singleton_append, List.nil_append, List.cons_append] at ihx ⊢
    rw [samplesPoll.eq_def]
    simp [h0, ihx, tickList_succ]

/-- Closed form of the per-document poll region (loop plus the "Indexed"
completion snapshot with the incremented done count). -/
theorem samplesDocRegion_closed (sN sM sA pN : String) (dc total : Nat)
    (pending : List Operation) (dop op0 : Operation)
    (hp : ∀ o ∈ pending, o.done = false) (hd : dop.done = true) (h0 : op0.done = false) :
    samplesDocRegion sN sM sA pN dc total op0 ((pending ++ [dop]).map Except.ok) =
      ((tickList 1 (pending.length + 1)).map (samplesSnap sN sM pN dc total) ++
        [indexedSnap sN sA pN (dc + 1) total],
       pending.length + 1, FlowResult.ok dop) := by
  have h := samplesPoll_closed sN sM pN dc total pending dop op0 0 [] hp hd h0
  simp only [List.append_nil] at h
  simp only [samplesDocRegion]
  rw [h]

/-- A non-decreasing function of the tick, sampled on consecutive ticks and
followed by an upper bound, forms a non-decreasing chain. -/
theorem chain_le_ticks_append {α : Type} [Preorder α] (g : Nat → α) (x : α)
    (hg : ∀ i, g i ≤ g (i + 1)) (hx : ∀ i, g i ≤ x) :
    ∀ (s n : Nat), List.Chain' (fun a b => a ≤ b) ((tickList s n).map g ++ [x]) := by
  intro s n
  induction n generalizing s with
  | zero => simp
  | succ m ih =>
    rw [tickList_succ, List.map_cons, List.cons_append, List.chain'_cons']
    refine ⟨?_, ih (s + 1)⟩
    intro y hy
    cases m with
    | zero =>
      simp at hy
      subst hy
      exact hx s
    | succ k =>
      simp [tickList_succ] at hy
      subst hy
      exact hg s

/-- C1 (amended): for a synthetic operation that is pending at loop entry and
that the service reports complete on exactly the N-th status re-fetch, the
poll loop region of `upload_and_index` (lines 224-237) and the per-document
poll region of `create_store_with_samples` (lines 133-149) each perform
exactly N re-fetches and yield exactly N+1 progress snapshots — N pending
snapshots followed by one final snapshot corresponding to the completed
state — and each percentage sequence is monotonically non-decreasing with
every percentage in [0,100]. -/
theorem C1_poll_snapshots
    (storeName fname sN sM sA pN : String) (pending : List Operation) (dop op0 : Operation)
    (N dc total : Nat)
    (hp : ∀ o ∈ pending, o.done = false) (hd : dop.done = true) (h0 : op0.done = false)
    (hN : N = pending.length + 1) (hdc : dc + 1 ≤ total) :
    (uploadPollRegion storeName fname op0 ((pending ++ [dop]).map Except.ok)).1.length = N + 1 ∧
    (uploadPollRegion storeName fname op0 ((pending ++ [dop]).map Except.ok)).2.1 = N ∧
    (uploadPollRegion storeName fname op0 ((pending ++ [dop]).map Except.ok)).2.2 =
      FlowResult.ok () ∧
    (uploadPollRegion storeName fname op0 ((pending ++ [dop]).map Except.ok)).1.getLast? =
      some ⟨some (opTextOf dop), "✅ File indexed into `" ++ storeName ++ "`", 100, "Finished"⟩ ∧
    List.Chain' (fun a b => a ≤ b)
      ((uploadPollRegion storeName fname op0 ((pending ++ [dop]).map Except.ok)).1.map
        (fun y => y.pct)) ∧
    ((uploadPollRegion storeName fname op0 ((pending ++ [dop]).map Except.ok)).1.map
        (fun y => y.pct)).all (fun q => decide (q ≤ 100)) = true ∧
    (samplesDocRegion sN sM sA pN dc total op0 ((pending ++ [dop]).map Except.ok)).1.length =
      N + 1 ∧
    (samplesDocRegion sN sM sA pN dc total op0 ((pending ++ [dop]).map Except.ok)).2.1 = N ∧
    (samplesDocRegion sN sM sA pN dc total op0 ((pending ++ [dop]).map Except.ok)).2.2 =
      FlowResult.ok dop ∧
    (samplesDocRegion sN sM sA pN dc total op0 ((pending ++ [dop]).map Except.ok)).1.getLast? =
      some (indexedSnap sN sA pN (dc + 1) total) ∧
    List.Chain' (fun a b => a ≤ b)
      ((samplesDocRegion sN sM sA pN dc total op0 ((pending ++ [dop]).map Except.ok)).1.map
        (fun y => y.pct)) ∧
    ((samplesDocRegion sN sM sA pN dc total op0 ((pending ++ [dop]).map Except.ok)).1.map
        (fun y => y.pct)).all (fun q => decide (0 ≤ q) && decide (q ≤ 100)) = true := by
  subst hN
  have hu := uploadPollRegion_closed storeName fname pending dop op0 hp hd h0
  have hs := samplesDocRegion_closed sN sM sA pN dc total pending dop op0 hp hd h0
  have h1T : 1 ≤ total := le_trans (by omega) hdc
  have hT : (0 : ℚ) < (total : ℚ) := by
    exact_mod_cast Nat.lt_of_lt_of_le Nat.zero_lt_one h1T
  have hTc : (dc : ℚ) + 1 ≤ (total : ℚ) := by exact_mod_cast hdc
  have hgN : ∀ i, min 95 (5 + i * 3) ≤ min 95 (5 + (i + 1) * 3) :=
    fun i => min_le_min (le_refl 95) (by omega)
  have hxN : ∀ i : Nat, min 95 (5 + i * 3) ≤ 100 :=
    fun i => le_trans (min_le_left _ _) (by norm_num)
  have hmQ : ∀ i : Nat, ((min 95 (5 + i * 3) : Nat) : ℚ) ≤ 95 := by
    intro i
    exact_mod_cast min_le_left 95 (5 + i * 3)
  have hmQ0 : ∀ i : Nat, (0 : ℚ) ≤ ((min 95 (5 + i * 3) : Nat) : ℚ) := by
    intro i
    positivity
  have hgQ : ∀ i,
      (dc : ℚ) / (total : ℚ) * 100 + ((min 95 (5 + i * 3) : Nat) : ℚ) / (total : ℚ) ≤
      (dc : ℚ) / (total : ℚ) * 100 + ((min 95 (5 + (i + 1) * 3) : Nat) : ℚ) / (total : ℚ) := by
    intro i
    have hm : ((min 95 (5 + i * 3) : Nat) : ℚ) ≤ ((min 95 (5 + (i + 1) * 3) : Nat) : ℚ) := by
      exact_mod_cast hgN i
    exact add_le_add_left ((div_le_div_iff_of_pos_right hT).mpr hm) _
  have hxQ : ∀ i,
      (dc : ℚ) / (total : ℚ) * 100 + ((min 95 (5 + i * 3) : Nat) : ℚ) / (total : ℚ) ≤
      ((dc + 1 : Nat) : ℚ) / (total : ℚ) * 100 := by
    intro i
    rw [div_mul_eq_mul_div, div_mul_eq_mul_div, div_add_div_same]
    refine (div_le_div_iff_of_pos_right hT).mpr ?_
    have := hmQ i
    push_cast at this ⊢
    linarith
  have hbQ : ∀ i,
      (0 : ℚ) ≤ (dc : ℚ) / (total : ℚ) * 100 + ((min 95 (5 + i * 3) : Nat) : ℚ) / (total : ℚ) := by
    intro i
    positivity
  have hb2Q : ∀ i,
      (dc : ℚ) / (total : ℚ) * 100 + ((min 95 (5 + i * 3) : Nat) : ℚ) / (total : ℚ) ≤ 100 := by
    intro i
    rw [div_mul_eq_mul_div, div_add_div_same, div_le_iff₀ hT]
    have := hmQ i
    linarith
  have hxb1 : (0 : ℚ) ≤ ((dc + 1 : Nat) : ℚ) / (total : ℚ) * 100 := by positivity
  have hxb2 : ((dc + 1 : Nat) : ℚ) / (total : ℚ) * 100 ≤ 100 := by
    rw [div_mul_eq_mul_div, div_le_iff₀ hT]
    push_cast
    linarith
  have hcompN : (fun y => y.pct) ∘ uploadSnap fname = fun t => min 95 (5 + t * 3) := by
    funext t
    simp [uploadSnap]
  have hcompQ : (fun y => y.pct) ∘ samplesSnap sN sM pN dc total = fun t =>
      (dc : ℚ) / (total : ℚ) * 100 + ((min 95 (5 + t * 3) : Nat) : ℚ) / (total : ℚ) := by
    funext t
    simp [samplesSnap]
  refine ⟨?_, ?_, ?_, ?_, ?_, ?_, ?_, ?_, ?_, ?_, ?_, ?_⟩
  · rw [hu]
    simp
  · rw [hu]
  · rw [hu]
  · rw [hu]
    exact List.getLast?_concat _
  · rw [hu]
    simp only [List.map_append, List.map_map, List.map_cons, List.map_nil, hcompN]
    exact chain_le_ticks_append _ _ hgN hxN 1 _
  · rw [hu]
    simp only [List.map_append, List.map_map, List.map_cons, List.map_nil, hcompN,
      List.all_eq_true, decide_eq_true_eq]
    intro q hq
    rcases List.mem_append.mp hq with h | h
    · rcases List.mem_map.mp h with ⟨t, ht, rfl⟩
      exact hxN t
    · simp at h
      subst h
      norm_num
  · rw [hs]
    simp
  · rw [hs]
  · rw [hs]
  · rw [hs]
    exact List.getLast?_concat _
  · rw [hs]
    simp only [List.map_append, List.map_map, List.map_cons, List.map_nil, hcompQ, indexedSnap]
    exact chain_le_ticks_append _ _ hgQ hxQ 1 _
  · rw [hs]
    simp only [List.map_append, List.map_map, List.map_cons, List.map_nil, hcompQ, indexedSnap,
      List.all_eq_true, Bool.and_eq_true, decide_eq_true_eq]
    intro q hq
    rcases List.mem_append.mp hq with h | h
    · rcases List.mem_map.mp h with ⟨t, ht, rfl⟩
      exact ⟨hbQ t, hb2Q t⟩
    · rw [List.mem_singleton] at h
      subst h
      exact ⟨hxb1, hxb2⟩

theorem C1_poll_snapshots_witness :
    (uploadPollRegion "s1" "f.txt" ⟨false, none⟩
        (([Operation.mk false none] ++ [Operation.mk true (some "payload")]).map Except.ok)).1.length = 2 + 1 ∧
    (uploadPollRegion "s1" "f.txt" ⟨false, none⟩
        (([Operation.mk false none] ++ [Operation.mk true (some "payload")]).map Except.ok)).2.1 = 2 ∧
    (uploadPollRegion "s1" "f.txt" ⟨false, none⟩
        (([Operation.mk false none] ++ [Operation.mk true (some "payload")]).map Except.ok)).2.2 =
      FlowResult.ok () ∧
    (uploadPollRegion "s1" "f.txt" ⟨false, none⟩
        (([Operation.mk false none] ++ [Operation.mk true (some "payload")]).map Except.ok)).1.getLast? =
      some ⟨some (opTextOf ⟨true, some "payload"⟩), "✅ File indexed into `" ++ "s1" ++ "`", 100, "Finished"⟩ ∧
    List.Chain' (fun a b => a ≤ b)
      ((uploadPollRegion "s1" "f.txt" ⟨false, none⟩
        (([Operation.mk false none] ++ [Operation.mk true (some "payload")]).map Except.ok)).1.map
        (fun y => y.pct)) ∧
    ((uploadPollRegion "s1" "f.txt" ⟨false, none⟩
        (([Operation.mk false none] ++ [Operation.mk true (some "payload")]).map Except.ok)).1.map
        (fun y => y.pct)).all (fun q => decide (q ≤ 100)) = true ∧
    (samplesDocRegion "st" "md" "md2" "p.txt" 0 1 ⟨false, none⟩
        (([Operation.mk false none] ++ [Operation.mk true (some "payload")]).map Except.ok)).1.length = 2 + 1 ∧
    (samplesDocRegion "st" "md" "md2" "p.txt" 0 1 ⟨false, none⟩
        (([Operation.mk false none] ++ [Operation.mk true (some "payload")]).map Except.ok)).2.1 = 2 ∧
    (samplesDocRegion "st" "md" "md2" "p.txt" 0 1 ⟨false, none⟩
        (([Operation.mk false none] ++ [Operation.mk true (some "payload")]).map Except.ok)).2.2 =
      FlowResult.ok ⟨true, some "payload"⟩ ∧
    (samplesDocRegion "st" "md" "md2" "p.txt" 0 1 ⟨false, none⟩
        (([Operation.mk false none] ++ [Operation.mk true (some "payload")]).map Except.ok)).1.getLast? =
      some (indexedSnap "st" "md2" "p.txt" (0 + 1) 1) ∧
    List.Chain' (fun a b => a ≤ b)
      ((samplesDocRegion "st" "md" "md2" "p.txt" 0 1 ⟨false, none⟩
        (([Operation.mk false none] ++ [Operation.mk true (some "payload")]).map Except.ok)).1.map
        (fun y => y.pct)) ∧
    ((samplesDocRegion "st" "md" "md2" "p.txt" 0 1 ⟨false, none⟩
        (([Operation.mk false none] ++ [Operation.mk true (some "payload")]).map Except.ok)).1.map
        (fun y => y.pct)).all (fun q => decide (0 ≤ q) && decide (q ≤ 100)) = true :=
  C1_poll_snapshots "s1" "f.txt" "st" "md" "md2" "p.txt"
    [Operation.mk false none] ⟨true, some "payload"⟩ ⟨false, none⟩ 2 0 1
    (by decide) rfl rfl rfl (by decide)

/-- C1 counterexample to the claim as stated: for an operation reported
complete on exactly the first status re-fetch (N = 1), the poll region of
`upload_and_index` yields 2 progress snapshots, not 1 — the loop yields one
pending snapshot per re-fetch and the completed-state snapshot is an
additional final yield. -/
theorem C1_poll_snapshots_counterexample :
    (uploadPollRegion "s1" "f.txt" ⟨false, none⟩ [Except.ok ⟨true, none⟩]).1.length = 2 ∧
    ¬ (uploadPollRegion "s1" "f.txt" ⟨false, none⟩ [Except.ok ⟨true, none⟩]).1.length = 1 := by
  have h : (uploadPollRegion "s1" "f.txt" ⟨false, none⟩ [Except.ok ⟨true, none⟩]).1.length = 2 := rfl
  refine ⟨h, ?_⟩
  rw [h]
  decide

end App
